import Mathlib

/-!
Verification of `src/packages/markitdown/src/markitdown/converters/_outlook_msg_converter.py`
(`OutlookMsgConverter`).

Shallow embedding conventions:
* Python `str` values are lists of Unicode code points (`List Nat`); `bytes` are lists of
  byte values (`List Nat`, each < 256 on real inputs).
* Fallible Python operations are `Except`-valued; a `try/except` is a `match` on that value.
* The olefile container handle (`OleFileIO`) is modelled as a structure of its observable
  operations (`listdir`, `exists`, `openstream(...).read()`), per the external interface
  the converter consumes.  The module-level `olefile` availability and the external
  collaborators (`olefile.isOleFile`, the `OleFileIO` constructor, `markdownify`) form an
  environment record; the seekable input stream is a pair of contents and position.
* `convert` additionally reports whether it opened the container handle and whether it
  closed it before exiting, so resource claims are statable.
-/

namespace MarkitdownMsg

/-- Code points of a Lean string literal; used to write Python string constants. -/
def toCodes (s : String) : List Nat := s.toList.map Char.toNat

/-- Python `str` modelled as its sequence of Unicode code points. -/
abbrev PyStr := List Nat

/-- Python `bytes` modelled as its sequence of byte values. -/
abbrev Bytes := List Nat

/-- Decidable equality for `Except` values (needed to evaluate concrete runs). -/
def exceptDecEq {ε α : Type} [DecidableEq ε] [DecidableEq α] :
    (a b : Except ε α) → Decidable (a = b)
  | .ok x, .ok y =>
    if h : x = y then .isTrue (by rw [h]) else .isFalse (fun hc => by cases hc; exact h rfl)
  | .ok _, .error _ => .isFalse (fun hc => by cases hc)
  | .error _, .ok _ => .isFalse (fun hc => by cases hc)
  | .error e, .error f =>
    if h : e = f then .isTrue (by rw [h]) else .isFalse (fun hc => by cases hc; exact h rfl)

instance {ε α : Type} [DecidableEq ε] [DecidableEq α] : DecidableEq (Except ε α) :=
  exceptDecEq

/-- Python's substring operator `needle in hay` on strings. -/
def pyInStr (needle hay : List Nat) : Bool :=
  match hay with
  | [] => needle.isPrefixOf ([] : List Nat)
  | _ :: t => needle.isPrefixOf hay || pyInStr needle t

/-- Code points Python's `str.strip()` removes (the `str.isspace` set). -/
def pyIsSpace (c : Nat) : Bool :=
  (9 ≤ c && c ≤ 13) || (28 ≤ c && c ≤ 31) || c = 32 || c = 0x85 || c = 0xA0 ||
  c = 0x1680 || (0x2000 ≤ c && c ≤ 0x200A) || c = 0x2028 || c = 0x2029 ||
  c = 0x202F || c = 0x205F || c = 0x3000

/-- Python `str.strip()`: drop leading and trailing whitespace code points. -/
def pyStrip (t : List Nat) : List Nat :=
  ((t.dropWhile pyIsSpace).reverse.dropWhile pyIsSpace).reverse

/-- Python `str.lower()` on one code point.  ASCII letters map down by 32.  Of all other
Unicode lowercase mappings, exactly two produce code points in the ASCII range (which is
all the comparisons in this module consult): U+0130 lowers to `i` followed by U+0307, and
U+212A (Kelvin sign) lowers to `k`.  Every remaining mapping sends a non-ASCII point to
non-ASCII points and is modelled as the identity, which no comparison in this module can
distinguish from the true mapping. -/
def pyLowerChar (c : Nat) : List Nat :=
  if 65 ≤ c ∧ c ≤ 90 then [c + 32]
  else if c = 0x130 then [0x69, 0x307]
  else if c = 0x212A then [0x6B]
  else [c]

/-- Python `str.lower()`. -/
def pyLower (s : List Nat) : List Nat := (s.map pyLowerChar).flatten

/-- `OutlookMsgConverter._strip_null_terminator`: if the text is non-empty and ends with
U+0000, drop exactly that one character, then `strip()` the result. -/
def stripNullTerminator (text : PyStr) : PyStr :=
  pyStrip (if text ≠ [] ∧ text.getLast? = some 0 then text.dropLast else text)

/-- Python `bytes.decode("utf-16-le")` (strict): pair bytes little-endian into 16-bit
units; a high surrogate must be followed by a low surrogate (combined into one scalar),
a lone surrogate or a trailing odd byte raises. -/
def utf16leDecode : List Nat → Except Unit (List Nat)
  | [] => .ok []
  | [_] => .error ()
  | b0 :: b1 :: rest =>
    let u := b0 + 256 * b1
    if 0xD800 ≤ u ∧ u ≤ 0xDBFF then
      match rest with
      | b2 :: b3 :: rest2 =>
        let v := b2 + 256 * b3
        if 0xDC00 ≤ v ∧ v ≤ 0xDFFF then
          (utf16leDecode rest2).map
            (fun t => (0x10000 + (u - 0xD800) * 0x400 + (v - 0xDC00)) :: t)
        else .error ()
      | _ => .error ()
    else if 0xDC00 ≤ u ∧ u ≤ 0xDFFF then .error ()
    else (utf16leDecode rest).map (fun t => u :: t)

/-- Valid UTF-8 continuation byte. -/
def isCont (b : Nat) : Bool := 0x80 ≤ b && b ≤ 0xBF

/-- Lower bound for the first continuation byte of a three-byte UTF-8 sequence. -/
def cont2Lo (b0 : Nat) : Nat := if b0 = 0xE0 then 0xA0 else 0x80

/-- Upper bound for the first continuation byte of a three-byte UTF-8 sequence
(excludes surrogates after 0xED). -/
def cont2Hi (b0 : Nat) : Nat := if b0 = 0xED then 0x9F else 0xBF

/-- Lower bound for the first continuation byte of a four-byte UTF-8 sequence. -/
def cont3Lo (b0 : Nat) : Nat := if b0 = 0xF0 then 0x90 else 0x80

/-- Upper bound for the first continuation byte of a four-byte UTF-8 sequence
(caps at U+10FFFF after 0xF4). -/
def cont3Hi (b0 : Nat) : Nat := if b0 = 0xF4 then 0x8F else 0xBF

/-- Python's UTF-8 decoder, structurally recursive on a fuel argument so that it
computes by kernel reduction; `utf8Core` instantiates the fuel with the input length,
which the recursion never exhausts (every call consumes at least one byte).
With `ignoreErrs = false` this is `bytes.decode("utf-8")`: any ill-formed sequence
(including a truncated one at the end) raises.  With `ignoreErrs = true` it is
`bytes.decode("utf-8", errors="ignore")`: the maximal valid prefix of an ill-formed
sequence is skipped and decoding resumes at the next byte, so it never fails. -/
def utf8Fuel (ignoreErrs : Bool) : Nat → List Nat → Except Unit (List Nat)
  | _, [] => .ok []
  | 0, _ :: _ => .error ()
  | fuel + 1, b0 :: rest =>
    if b0 ≤ 0x7F then (utf8Fuel ignoreErrs fuel rest).map (fun t => b0 :: t)
    else if 0xC2 ≤ b0 ∧ b0 ≤ 0xDF then
      match rest with
      | b1 :: r =>
        if isCont b1 then
          (utf8Fuel ignoreErrs fuel r).map (fun t => ((b0 - 0xC0) * 64 + (b1 - 0x80)) :: t)
        else if ignoreErrs then utf8Fuel ignoreErrs fuel (b1 :: r) else .error ()
      | [] => if ignoreErrs then .ok [] else .error ()
    else if 0xE0 ≤ b0 ∧ b0 ≤ 0xEF then
      match rest with
      | b1 :: r =>
        if cont2Lo b0 ≤ b1 ∧ b1 ≤ cont2Hi b0 then
          match r with
          | b2 :: r2 =>
            if isCont b2 then
              (utf8Fuel ignoreErrs fuel r2).map
                (fun t => ((b0 - 0xE0) * 4096 + (b1 - 0x80) * 64 + (b2 - 0x80)) :: t)
            else if ignoreErrs then utf8Fuel ignoreErrs fuel (b2 :: r2) else .error ()
          | [] => if ignoreErrs then .ok [] else .error ()
        else if ignoreErrs then utf8Fuel ignoreErrs fuel (b1 :: r) else .error ()
      | [] => if ignoreErrs then .ok [] else .error ()
    else if 0xF0 ≤ b0 ∧ b0 ≤ 0xF4 then
      match rest with
      | b1 :: r =>
        if cont3Lo b0 ≤ b1 ∧ b1 ≤ cont3Hi b0 then
          match r with
          | b2 :: r2 =>
            if isCont b2 then
              match r2 with
              | b3 :: r3 =>
                if isCont b3 then
                  (utf8Fuel ignoreErrs fuel r3).map
                    (fun t => ((b0 - 0xF0) * 262144 + (b1 - 0x80) * 4096 +
                               (b2 - 0x80) * 64 + (b3 - 0x80)) :: t)
                else if ignoreErrs then utf8Fuel ignoreErrs fuel (b3 :: r3) else .error ()
              | [] => if ignoreErrs then .ok [] else .error ()
            else if ignoreErrs then utf8Fuel ignoreErrs fuel (b2 :: r2) else .error ()
          | [] => if ignoreErrs then .ok [] else .error ()
        else if ignoreErrs then utf8Fuel ignoreErrs fuel (b1 :: r) else .error ()
      | [] => if ignoreErrs then .ok [] else .error ()
    else
      if ignoreErrs then utf8Fuel ignoreErrs fuel rest else .error ()

/-- Python's UTF-8 decoder on a byte string (see `utf8Fuel`). -/
def utf8Core (ignoreErrs : Bool) (bs : List Nat) : Except Unit (List Nat) :=
  utf8Fuel ignoreErrs bs.length bs

/-- Python `bytes.decode("utf-8")` (strict). -/
def utf8Decode (bs : Bytes) : Except Unit (List Nat) := utf8Core false bs

/-- Python `bytes.decode("utf-8", errors="ignore")`; total. -/
def utf8DecodeIgnore (bs : Bytes) : List Nat := (utf8Core true bs).toOption.getD []

/-- Python `bytes.decode("iso-8859-1")`: each byte is its own code point; total on
arbitrary bytes. -/
def latin1Decode (bs : Bytes) : List Nat := bs

example : utf16leDecode (toCodes "H\x00e\x00") = .ok (toCodes "He") := by decide
example : utf8Decode [0xC3, 0xA9] = .ok [0xE9] := by decide
example : utf8Decode [0xFF] = .error () := by decide
example : utf8DecodeIgnore [60, 104, 0xFF, 116, 109, 108] = toCodes "<html" := by decide
example : pyStrip (toCodes "  hi \n") = toCodes "hi" := by decide
example : stripNullTerminator (toCodes "Hello\x00") = toCodes "Hello" := by decide
example : pyInStr (toCodes "<html") (toCodes "x<html>") = true := by decide
example : pyLower (toCodes ".MSG") = toCodes ".msg" := by decide

/-- `OleFileIO.exists`/`openstream().read()`/`listdir` surface, per the external
container interface the converter consumes (an opened compound-document handle).
`listdir` already holds the `str(...)` rendering of each directory entry, as built in
`accepts`; `openRead` is the composite `openstream(path).read()`, whose failure models
any exception raised during lookup or read of that stream. -/
structure OleFile where
  listdir : List PyStr
  existsStream : PyStr → Bool
  openRead : PyStr → Except Unit Bytes

/-- A Python exception escaping `convert`, or the distinguished missing-dependency
error (which carries the extension and feature names interpolated into its message). -/
inductive PyErr where
  | missingDependency (extension feature : PyStr)
  | typeErr
  | readErr
  | openErr
deriving DecidableEq

/-- The ambient state `accepts`/`convert` read but never write: whether the optional
`olefile` dependency imported, and the external collaborators — `olefile.isOleFile`,
the `OleFileIO` constructor, and `markdownify`.  The two probing collaborators consume
the seekable input stream: they take its contents and current position and return their
answer together with the position they leave the stream at. -/
structure Env where
  deps : Bool
  isOle : List Nat → Nat → Bool × Nat
  openOle : List Nat → Nat → Except Unit OleFile × Nat
  markdownify : PyStr → PyStr

/-- A binary input stream: contents plus current read position (`tell`). -/
structure FileStream where
  data : List Nat
  pos : Nat

def fromNamePath : PyStr := toCodes "__substg1.0_0C1A001F"
def fromAddrPath : PyStr := toCodes "__substg1.0_5D01001F"
def toPath : PyStr := toCodes "__substg1.0_0E04001F"
def subjectPath : PyStr := toCodes "__substg1.0_0037001F"
def plainBodyPath : PyStr := toCodes "__substg1.0_1000001F"
def htmlBodyPath : PyStr := toCodes "__substg1.0_10130102"

/-- `OutlookMsgConverter._get_stream_data` (source lines 142-165): absent when the
stream does not exist or its read raises; otherwise decode as UTF-16-LE, falling back
on `UnicodeDecodeError` to UTF-8, then to UTF-8 with errors ignored, and normalize the
result with `_strip_null_terminator`. -/
def getStreamData (msg : OleFile) (streamPath : PyStr) : Option PyStr :=
  if msg.existsStream streamPath then
    match msg.openRead streamPath with
    | .error _ => none
    | .ok data =>
      some (stripNullTerminator
        (match utf16leDecode data with
         | .ok s => s
         | .error _ =>
           match utf8Decode data with
           | .ok s => s
           | .error _ => utf8DecodeIgnore data))
  else none

/-- The HTML markers of `is_valid_html` inside `_process_html_stream`. -/
def htmlMarkers : List PyStr :=
  [toCodes "<html", toCodes "<body", toCodes "<head", toCodes "<div"]

/-- `is_valid_html` (source lines 198-202): the lowered content contains at least one
marker substring. -/
def isValidHtml (content : PyStr) : Bool :=
  htmlMarkers.any (fun m => pyInStr m (pyLower content))

/-- `OutlookMsgConverter._process_html_stream` (source lines 184-227), with the
`try/except UnicodeDecodeError` realized as the `match` on the UTF-16-LE decode result
(the only fallible operation in the `try` body; the ISO-8859-1 and UTF-8-ignore decodes
are total, and `markdownify` is an external pure function). -/
def processHtmlStream (mdify : PyStr → PyStr) (rawData : Bytes) : PyStr :=
  match utf16leDecode rawData with
  | .ok d =>
    let html := stripNullTerminator d
    if isValidHtml html then mdify html
    else
      let html2 := stripNullTerminator (latin1Decode rawData)
      if isValidHtml html2 then mdify html2
      else
        let html3 := stripNullTerminator (utf8DecodeIgnore rawData)
        if isValidHtml html3 then mdify html3
        else []
  | .error _ =>
    let html := stripNullTerminator (latin1Decode rawData)
    if isValidHtml html then mdify html
    else []

/-- `_process_html_stream` with the exception flow kept explicit: the whole `try` body
is an `Except` computation whose only throwing operation is the UTF-16-LE decode, and
the `except UnicodeDecodeError` clause handles its error (the inner `try/except` around
the ISO-8859-1 decode guards an operation that cannot fail, so it is that decode
itself); a result of `.error` would model an exception escaping the function. -/
def processHtmlStreamExc (mdify : PyStr → PyStr) (rawData : Bytes) : Except Unit PyStr :=
  match
    (utf16leDecode rawData).bind (fun d =>
      let html := stripNullTerminator d
      if isValidHtml html then .ok (mdify html)
      else
        let html2 := stripNullTerminator (latin1Decode rawData)
        if isValidHtml html2 then .ok (mdify html2)
        else
          let html3 := stripNullTerminator (utf8DecodeIgnore rawData)
          if isValidHtml html3 then .ok (mdify html3)
          else .ok ([] : PyStr))
  with
  | .ok r => .ok r
  | .error _ =>
    let html := stripNullTerminator (latin1Decode rawData)
    if isValidHtml html then .ok (mdify html)
    else .ok []

/-- The `"From"` entry of the headers dict (source line 109):
`_get_stream_data(msg, name) + " <" + _get_stream_data(msg, addr) + ">"`.
`_get_stream_data` returns `str | None`; adding `None` to a `str` raises `TypeError`,
so the concatenation only succeeds when both halves are present. -/
def fromHeader (msg : OleFile) : Except PyErr PyStr :=
  match getStreamData msg fromNamePath, getStreamData msg fromAddrPath with
  | some n, some a => .ok (n ++ toCodes " <" ++ a ++ toCodes ">")
  | _, _ => .error .typeErr

/-- The rendered header block (source lines 115-117): one `**Key:** value` line per
truthy header value, in dict insertion order From, To, Subject. -/
def headerBlock (fromVal : PyStr) (toVal subjVal : Option PyStr) : PyStr :=
  (if fromVal ≠ [] then toCodes "**From:** " ++ fromVal ++ toCodes "\n" else []) ++
  (match toVal with
   | some v => if v ≠ [] then toCodes "**To:** " ++ v ++ toCodes "\n" else []
   | none => []) ++
  (match subjVal with
   | some v => if v ≠ [] then toCodes "**Subject:** " ++ v ++ toCodes "\n" else []
   | none => [])

/-- The HTML fallback inside `convert` (source lines 127-133): if the HTML stream
exists, read its raw bytes (a read failure here propagates — it is not inside any
`try`), process them, and append the result when truthy. -/
def htmlSection (env : Env) (msg : OleFile) : Except PyErr PyStr :=
  if msg.existsStream htmlBodyPath then
    match msg.openRead htmlBodyPath with
    | .error _ => .error .readErr
    | .ok rawData =>
      let htmlContent := processHtmlStream env.markdownify rawData
      .ok (if htmlContent ≠ [] ∧ 0 < htmlContent.length then htmlContent else [])
  else .ok []

/-- The content section of `convert` (source lines 122-133): the plain body stream if
it decodes to a truthy value, else the HTML fallback. -/
def contentSection (env : Env) (msg : OleFile) : Except PyErr PyStr :=
  match getStreamData msg plainBodyPath with
  | some body => if body ≠ [] then .ok body else htmlSection env msg
  | none => htmlSection env msg

/-- The produced conversion result: markdown text plus optional title. -/
structure DocResult where
  markdown : PyStr
  title : Option PyStr
deriving DecidableEq

/-- Outcome of one `convert` call: its return value or escaping exception, whether the
container handle was opened, and whether it was closed before the call exited. -/
structure ConvertOutcome where
  result : Except PyErr DocResult
  opened : Bool
  closed : Bool
deriving DecidableEq

/-- `OutlookMsgConverter.convert` after the container handle is open (source lines
102-140).  `msg.close()` (line 135) sits on the straight-line path only, so the
`closed` flag is true exactly on the non-raising path. -/
def convertMsg (env : Env) (msg : OleFile) : ConvertOutcome :=
  match fromHeader msg with
  | .error e => { result := .error e, opened := true, closed := false }
  | .ok fromVal =>
    let toVal := getStreamData msg toPath
    let subjVal := getStreamData msg subjectPath
    let mdHead := toCodes "# Email Message\n\n" ++ headerBlock fromVal toVal subjVal ++
      toCodes "\n## Content\n\n"
    match contentSection env msg with
    | .error e => { result := .error e, opened := true, closed := false }
    | .ok content =>
      { result := .ok { markdown := pyStrip (mdHead ++ content), title := subjVal },
        opened := true, closed := true }

/-- `OutlookMsgConverter.convert` (source lines 77-140): raise the distinguished
missing-dependency error when `olefile` did not import, otherwise open the container
(`OleFileIO(file_stream)`, whose failure propagates) and extract. -/
def convert (env : Env) (fs : FileStream) : ConvertOutcome :=
  if env.deps = false then
    { result := .error (.missingDependency (toCodes ".msg") (toCodes "outlook")),
      opened := false, closed := false }
  else
    match (env.openOle fs.data fs.pos).1 with
    | .error _ => { result := .error .openErr, opened := false, closed := false }
    | .ok msg => convertMsg env msg

/-- `ACCEPTED_FILE_EXTENSIONS` (source line 23). -/
def acceptedFileExts : List PyStr := [toCodes ".msg"]

/-- `ACCEPTED_MIME_TYPE_PREFIXES` (source lines 19-21). -/
def acceptedMimePfxs : List PyStr := [toCodes "application/vnd.ms-outlook"]

/-- `"\n".join(...)` over the stringified directory entries. -/
def joinNL : List PyStr → PyStr
  | [] => []
  | [s] => s
  | s :: rest => s ++ 10 :: joinNL rest

/-- The joined searchable directory blob built in `accepts` (source line 63). -/
def tocOf (msg : OleFile) : PyStr := joinNL msg.listdir

/-- `OutlookMsgConverter.accepts` (source lines 34-73), returning its boolean answer
and the stream position it leaves behind.  The extension and media-type checks return
before touching the stream; both brute-force blocks restore the saved position in
`finally`.  `olefile.isOleFile` is total per the consumed interface, and an exception
from the `OleFileIO` probe is swallowed by `except Exception`. -/
def accepts (env : Env) (fs : FileStream) (extension mimetype : Option PyStr) :
    Bool × Nat :=
  let mimeLower := pyLower (mimetype.getD [])
  let extLower := pyLower (extension.getD [])
  if extLower ∈ acceptedFileExts then (true, fs.pos)
  else if acceptedMimePfxs.any (fun p => p.isPrefixOf mimeLower) then (true, fs.pos)
  else
    let curPos := fs.pos
    if env.deps = true ∧ (env.isOle fs.data fs.pos).1 = false then (false, curPos)
    else if env.deps = true then
      match (env.openOle fs.data curPos).1 with
      | .ok msg =>
        (pyInStr (toCodes "__properties_version1.0") (tocOf msg) &&
         pyInStr (toCodes "__recip_version1.0_#00000000") (tocOf msg), curPos)
      | .error _ => (false, curPos)
    else (false, curPos)

/-- A container with no streams at all: every existence check is false and every read
fails. -/
def emptyOle : OleFile :=
  { listdir := [], existsStream := fun _ => false, openRead := fun _ => .error () }

/-- A container holding only the two From streams (display name `"A"`, address
`"a@x"`). -/
def bothOle : OleFile :=
  { listdir := [],
    existsStream := fun p => p == fromNamePath || p == fromAddrPath,
    openRead := fun p =>
      if p == fromNamePath then .ok [65]
      else if p == fromAddrPath then .ok (toCodes "a@x")
      else .error () }

/-- A container with a UTF-16-LE plain body `"Hi there"` and an HTML body stream. -/
def bodyOle : OleFile :=
  { listdir := [],
    existsStream := fun p => p == plainBodyPath || p == htmlBodyPath,
    openRead := fun p =>
      if p == plainBodyPath then
        .ok [72, 0, 105, 0, 32, 0, 116, 0, 104, 0, 101, 0, 114, 0, 101, 0]
      else if p == htmlBodyPath then .ok (toCodes "<html><body>Hi</body></html>")
      else .error () }

/-- A container whose subject stream holds the UTF-16-LE bytes of `"Hello\u0000"`. -/
def helloOle : OleFile :=
  { listdir := [],
    existsStream := fun p => p == subjectPath,
    openRead := fun p =>
      if p == subjectPath then .ok [72, 0, 101, 0, 108, 0, 108, 0, 111, 0, 0, 0]
      else .error () }

/-- An environment with `olefile` available whose container probes always hand back
`msg` without moving the stream. -/
def envOf (msg : OleFile) : Env :=
  { deps := true, isOle := fun _ p => (true, p), openOle := fun _ p => (.ok msg, p),
    markdownify := fun s => s }

/-- An environment in which the `olefile` import failed. -/
def envNoDeps : Env :=
  { deps := false, isOle := fun _ p => (true, p), openOle := fun _ p => (.error (), p),
    markdownify := fun s => s }

/-- An empty input stream at position 0. -/
def fs0 : FileStream := { data := [], pos := 0 }

/-- Two containers that agree on everything except (possibly) the HTML body stream. -/
def agreeExceptHtml (m m' : OleFile) : Prop :=
  m.listdir = m'.listdir ∧
  (∀ p, p ≠ htmlBodyPath → m.existsStream p = m'.existsStream p) ∧
  (∀ p, p ≠ htmlBodyPath → m.openRead p = m'.openRead p)

theorem getStreamData_congr {m m' : OleFile} (h : agreeExceptHtml m m')
    {p : PyStr} (hp : p ≠ htmlBodyPath) : getStreamData m p = getStreamData m' p := by
  unfold getStreamData
  rw [h.2.1 p hp, h.2.2 p hp]

/-- C1, counterexample: on a container in which the display-name stream (and the
address stream) is absent, the From concatenation does not proceed with empty strings —
`convert` raises a `TypeError` (`None + str`), refuting "the concatenation still
proceeds (and convert does not raise)". -/
theorem from_absent_raises_cex :
    getStreamData emptyOle fromNamePath = none ∧
    getStreamData emptyOle fromAddrPath = none ∧
    (convert (envOf emptyOle) fs0).result = .error .typeErr := by
  refine ⟨by decide, by decide, by decide⟩

/-- C1, amended: the From header is composed by decoding the display-name stream and
the email-address stream and concatenating them as `"<name> <<address>>"` whenever both
streams decode to a value; when either stream is absent or unreadable (the stream
decoder returns absent), `convert` raises a `TypeError` instead of substituting an
empty string. -/
theorem from_header_amended (env : Env) (fs : FileStream) (msg : OleFile)
    (hdeps : env.deps = true) (hopen : (env.openOle fs.data fs.pos).1 = .ok msg) :
    (∀ n a, getStreamData msg fromNamePath = some n →
      getStreamData msg fromAddrPath = some a →
      fromHeader msg = .ok (n ++ toCodes " <" ++ a ++ toCodes ">")) ∧
    ((getStreamData msg fromNamePath = none ∨ getStreamData msg fromAddrPath = none) →
      (convert env fs).result = .error .typeErr) := by
  constructor
  · intro n a hn ha
    unfold fromHeader
    rw [hn, ha]
  · intro h
    have hfrom : fromHeader msg = .error .typeErr := by
      unfold fromHeader
      rcases h with h | h
      · rw [h]
      · rw [h]
        cases getStreamData msg fromNamePath <;> rfl
    simp [convert, hdeps, hopen, convertMsg, hfrom]

/-- C1, witness for the amended claim at a concrete container holding both From
streams. -/
theorem from_header_amended_witness :
    fromHeader bothOle = .ok (toCodes "A <a@x>") := by
  have h := (from_header_amended (envOf bothOle) fs0 bothOle rfl rfl).1
    (toCodes "A") (toCodes "a@x") (by decide) (by decide)
  exact h.trans (by decide)

/-- C2, counterexample: a `convert` execution that opens the container handle and exits
(by the propagating `TypeError` of the absent From streams) without closing it,
refuting "the handle is closed before convert exits, on every exit path". -/
theorem close_skipped_cex :
    (convert (envOf emptyOle) fs0).opened = true ∧
    (convert (envOf emptyOle) fs0).closed = false ∧
    (convert (envOf emptyOle) fs0).result = .error .typeErr := by
  refine ⟨by decide, by decide, by decide⟩

/-- C2, amended: the handle is closed exactly on the normal-return path (which includes
every swallowed per-field decode error, since those never escape the stream decoder);
when an error propagates out of `convert` — absent From half, a raw HTML-stream read
failure, or the missing-dependency / open failures before the handle exists — the
close is skipped.  In particular a handle is never both opened and closed on an
error exit. -/
theorem close_iff_ok (env : Env) (fs : FileStream) :
    (convert env fs).closed = (convert env fs).result.isOk ∧
    ((convert env fs).closed = true → (convert env fs).opened = true) := by
  have hm : ∀ m : OleFile,
      (convertMsg env m).closed = (convertMsg env m).result.isOk ∧
      ((convertMsg env m).closed = true → (convertMsg env m).opened = true) := by
    intro m
    cases hf : fromHeader m with
    | error e => simp [convertMsg, hf, Except.isOk, Except.toBool]
    | ok v =>
      cases hc : contentSection env m with
      | error e => simp [convertMsg, hf, hc, Except.isOk, Except.toBool]
      | ok c => simp [convertMsg, hf, hc, Except.isOk, Except.toBool]
  by_cases hd : env.deps = false
  · simp [convert, hd, Except.isOk, Except.toBool]
  · cases ho : (env.openOle fs.data fs.pos).1 with
    | error e => simp [convert, hd, ho, Except.isOk, Except.toBool]
    | ok m => simpa [convert, hd, ho] using hm m

/-- C3: whenever the plain-text body stream decodes to a truthy value, that value is
used verbatim as the content section, and the whole extraction is insensitive to the
HTML body stream: any container differing only at the HTML stream path yields the
identical `convert` outcome, so the HTML stream is never consulted. -/
theorem plain_body_preferred (env : Env) (msg : OleFile) (b : PyStr)
    (hb : getStreamData msg plainBodyPath = some b) (hne : b ≠ []) :
    contentSection env msg = .ok b ∧
    ∀ msg', agreeExceptHtml msg msg' → convertMsg env msg = convertMsg env msg' := by
  have hc : contentSection env msg = .ok b := by
    unfold contentSection
    rw [hb]
    simp [hne]
  refine ⟨hc, ?_⟩
  intro msg' hag
  have hfrom : fromHeader msg = fromHeader msg' := by
    unfold fromHeader
    rw [getStreamData_congr hag (by decide), getStreamData_congr hag (by decide)]
  have hto : getStreamData msg toPath = getStreamData msg' toPath :=
    getStreamData_congr hag (by decide)
  have hsub : getStreamData msg subjectPath = getStreamData msg' subjectPath :=
    getStreamData_congr hag (by decide)
  have hb' : getStreamData msg' plainBodyPath = some b := by
    rw [← getStreamData_congr hag (by decide)]
    exact hb
  have hc' : contentSection env msg' = .ok b := by
    unfold contentSection
    rw [hb']
    simp [hne]
  cases hf : fromHeader msg' with
  | error e => simp [convertMsg, hfrom.trans hf, hf]
  | ok v => simp [convertMsg, hfrom.trans hf, hf, hc, hc', hto, hsub]

/-- C3, witness: with a UTF-16-LE plain body `"Hi there"` and an HTML stream also
present, the content section is exactly `"Hi there"`. -/
theorem plain_body_preferred_witness :
    contentSection (envOf bodyOle) bodyOle = .ok (toCodes "Hi there") :=
  (plain_body_preferred (envOf bodyOle) bodyOle (toCodes "Hi there")
    (by decide) (by decide)).1

/-- C4: the HTML-fallback decode tries UTF-16-LE, then ISO-8859-1, then UTF-8 with
errors ignored, each normalized and then gated by the HTML-marker plausibility test;
the first plausible result is rendered through the HTML-to-text transform, and if no
attempt is plausible — including the path where the UTF-16-LE decode raised and the
ISO-8859-1 result is implausible, which skips the third attempt — the result is the
empty string, without raising. -/
theorem html_fallback_order (mdify : PyStr → PyStr) (raw : Bytes) :
    (∀ d, utf16leDecode raw = .ok d →
      (isValidHtml (stripNullTerminator d) = true →
        processHtmlStream mdify raw = mdify (stripNullTerminator d)) ∧
      (isValidHtml (stripNullTerminator d) = false →
        (isValidHtml (stripNullTerminator (latin1Decode raw)) = true →
          processHtmlStream mdify raw = mdify (stripNullTerminator (latin1Decode raw))) ∧
        (isValidHtml (stripNullTerminator (latin1Decode raw)) = false →
          (isValidHtml (stripNullTerminator (utf8DecodeIgnore raw)) = true →
            processHtmlStream mdify raw =
              mdify (stripNullTerminator (utf8DecodeIgnore raw))) ∧
          (isValidHtml (stripNullTerminator (utf8DecodeIgnore raw)) = false →
            processHtmlStream mdify raw = [])))) ∧
    (∀ e, utf16leDecode raw = .error e →
      (isValidHtml (stripNullTerminator (latin1Decode raw)) = true →
        processHtmlStream mdify raw = mdify (stripNullTerminator (latin1Decode raw))) ∧
      (isValidHtml (stripNullTerminator (latin1Decode raw)) = false →
        processHtmlStream mdify raw = [])) := by
  constructor
  · intro d hd
    constructor
    · intro hv
      simp [processHtmlStream, hd, hv]
    · intro hv
      constructor
      · intro hv2
        simp [processHtmlStream, hd, hv, hv2]
      · intro hv2
        constructor
        · intro hv3
          simp [processHtmlStream, hd, hv, hv2, hv3]
        · intro hv3
          simp [processHtmlStream, hd, hv, hv2, hv3]
  · intro e he
    constructor
    · intro hv
      simp [processHtmlStream, he, hv]
    · intro hv
      simp [processHtmlStream, he, hv]

/-- C4, witness: the UTF-16-LE bytes of `"<html>"` decode on the first attempt, pass
the plausibility test, and are rendered through the transform (the identity here). -/
theorem html_fallback_order_witness :
    processHtmlStream (fun s => s) [60, 0, 104, 0, 116, 0, 109, 0, 108, 0, 62, 0] =
      toCodes "<html>" := by
  have h := ((html_fallback_order (fun s => s)
    [60, 0, 104, 0, 116, 0, 109, 0, 108, 0, 62, 0]).1
    (toCodes "<html>") (by decide)).1 (by decide)
  exact h.trans (by decide)

/-- C5: the stream decoder returns absent when the stream does not exist or its read
fails, and otherwise decodes the raw bytes as UTF-16-LE, falling back to UTF-8, then to
UTF-8 with invalid sequences discarded (total), applying the null-terminator drop and
whitespace trim to every decoded value. -/
theorem stream_decoder_spec (msg : OleFile) (streamPath : PyStr) :
    (msg.existsStream streamPath = false → getStreamData msg streamPath = none) ∧
    (∀ e, msg.openRead streamPath = .error e → getStreamData msg streamPath = none) ∧
    (∀ data, msg.existsStream streamPath = true → msg.openRead streamPath = .ok data →
      getStreamData msg streamPath = some (stripNullTerminator
        (match utf16leDecode data with
         | .ok s => s
         | .error _ =>
           match utf8Decode data with
           | .ok s => s
           | .error _ => utf8DecodeIgnore data))) := by
  refine ⟨?_, ?_, ?_⟩
  · intro h
    simp [getStreamData, h]
  · intro e he
    by_cases h : msg.existsStream streamPath
    · simp [getStreamData, h, he]
    · simp [getStreamData, h]
  · intro data hex hrd
    simp [getStreamData, hex, hrd]

/-- C5, witness: the UTF-16-LE bytes of `"Hello\u0000"` decode to the field value
`"Hello"` (terminator dropped, whitespace trimmed), obtained through the decoder spec
at a concrete container. -/
theorem stream_decoder_spec_witness :
    getStreamData helloOle subjectPath = some (toCodes "Hello") := by
  have h := (stream_decoder_spec helloOle subjectPath).2.2
    [72, 0, 101, 0, 108, 0, 108, 0, 111, 0, 0, 0] (by decide) (by decide)
  exact h.trans (by decide)

/-- C6: `accepts` short-circuits in order — true on a case-insensitive extension match
regardless of anything else, true on a case-insensitive media-type prefix match, and
otherwise true exactly when `olefile` is available, the input passes the OLE check, the
container opens, and the joined directory listing contains both marker substrings
(every failure, including an exception from the open, yields false). -/
theorem accepts_spec (env : Env) (fs : FileStream) (extension mimetype : Option PyStr) :
    (pyLower (extension.getD []) = toCodes ".msg" →
      (accepts env fs extension mimetype).1 = true) ∧
    ((toCodes "application/vnd.ms-outlook").isPrefixOf (pyLower (mimetype.getD [])) =
        true →
      (accepts env fs extension mimetype).1 = true) ∧
    (pyLower (extension.getD []) ≠ toCodes ".msg" →
      (toCodes "application/vnd.ms-outlook").isPrefixOf (pyLower (mimetype.getD [])) =
        false →
      ((accepts env fs extension mimetype).1 = true ↔
        env.deps = true ∧ (env.isOle fs.data fs.pos).1 = true ∧
        ∃ msg, (env.openOle fs.data fs.pos).1 = .ok msg ∧
          pyInStr (toCodes "__properties_version1.0") (tocOf msg) = true ∧
          pyInStr (toCodes "__recip_version1.0_#00000000") (tocOf msg) = true)) := by
  refine ⟨?_, ?_, ?_⟩
  · intro h
    simp [accepts, acceptedFileExts, h]
  · intro h
    by_cases hext : pyLower (extension.getD []) ∈ acceptedFileExts
    · simp [accepts, hext]
    · simp [accepts, acceptedMimePfxs, hext, h]
  · intro hext hmime
    by_cases hd : env.deps = true
    · cases hb : (env.isOle fs.data fs.pos).1 with
      | false =>
        simp [accepts, acceptedFileExts, acceptedMimePfxs, hext, hmime, hd, hb]
      | true =>
        cases ho : (env.openOle fs.data fs.pos).1 with
        | ok msg =>
          simp [accepts, acceptedFileExts, acceptedMimePfxs, hext, hmime, hd, hb, ho]
        | error e =>
          simp [accepts, acceptedFileExts, acceptedMimePfxs, hext, hmime, hd, hb, ho]
    · simp [accepts, acceptedFileExts, acceptedMimePfxs, hext, hmime, hd]

/-- C6, witness: a declared extension `".MSG"` is accepted case-insensitively
regardless of the content. -/
theorem accepts_spec_witness :
    (accepts (envOf emptyOle) fs0 (some (toCodes ".MSG")) none).1 = true :=
  (accepts_spec (envOf emptyOle) fs0 (some (toCodes ".MSG")) none).1 (by decide)

/-- C7: `accepts` leaves the stream position where it found it on every branch —
extension match, media-type match, OLE probe, directory probe, and swallowed-exception
paths alike (the probing collaborators may move the cursor; the `finally` blocks seek
back). -/
theorem accepts_preserves_position (env : Env) (fs : FileStream)
    (extension mimetype : Option PyStr) :
    (accepts env fs extension mimetype).2 = fs.pos := by
  unfold accepts
  by_cases h1 : pyLower (extension.getD []) ∈ acceptedFileExts
  · simp [h1]
  · by_cases h2 :
      (acceptedMimePfxs.any fun p => p.isPrefixOf (pyLower (mimetype.getD []))) = true
    · simp [h1, h2]
    · by_cases h4 : env.deps = true
      · cases hb : (env.isOle fs.data fs.pos).1 with
        | false => simp [h1, h2, h4, hb]
        | true =>
          cases ho : (env.openOle fs.data fs.pos).1 with
          | ok m => simp [h1, h2, h4, hb, ho]
          | error e => simp [h1, h2, h4, hb, ho]
      · simp [h1, h2, h4]

/-- C8: with `olefile` unavailable, `convert` raises the distinguished
missing-dependency error naming the `.msg` extension and the `outlook` feature without
opening anything, while `accepts` does not raise — its brute-force branch rejects
every input whose extension and media type do not match. -/
theorem missing_dependency_spec (env : Env) (fs : FileStream)
    (extension mimetype : Option PyStr) (hdeps : env.deps = false) :
    convert env fs =
      { result := .error (.missingDependency (toCodes ".msg") (toCodes "outlook")),
        opened := false, closed := false } ∧
    (pyLower (extension.getD []) ≠ toCodes ".msg" →
      (toCodes "application/vnd.ms-outlook").isPrefixOf (pyLower (mimetype.getD [])) =
        false →
      (accepts env fs extension mimetype).1 = false) := by
  constructor
  · simp [convert, hdeps]
  · intro hext hmime
    simp [accepts, acceptedFileExts, acceptedMimePfxs, hext, hmime, hdeps]

/-- C8, witness: with the dependency missing, `convert` on an empty input raises the
missing-dependency error and `accepts` with no extension or media type returns
false. -/
theorem missing_dependency_spec_witness :
    convert envNoDeps fs0 =
      { result := .error (.missingDependency (toCodes ".msg") (toCodes "outlook")),
        opened := false, closed := false } ∧
    (accepts envNoDeps fs0 none none).1 = false := by
  have h := missing_dependency_spec envNoDeps fs0 none none rfl
  exact ⟨h.1, h.2 (by decide) (by decide)⟩

/-- C9: the HTML-stream processor is total — its exception-explicit semantics always
returns `.ok`, equal to the pure function: the UTF-16-LE failure is the only caught
exception, the ISO-8859-1 decode is total (so the inner `except` is unreachable), and
UTF-8 with errors ignored cannot fail. -/
theorem process_html_total (mdify : PyStr → PyStr) (raw : Bytes) :
    processHtmlStreamExc mdify raw = .ok (processHtmlStream mdify raw) := by
  unfold processHtmlStreamExc processHtmlStream
  cases h : utf16leDecode raw with
  | ok d =>
    by_cases h1 : isValidHtml (stripNullTerminator d) = true
    · simp [Except.bind, h, h1]
    · by_cases h2 : isValidHtml (stripNullTerminator (latin1Decode raw)) = true
      · simp [Except.bind, h, h1, h2]
      · by_cases h3 : isValidHtml (stripNullTerminator (utf8DecodeIgnore raw)) = true
        · simp [Except.bind, h, h1, h2, h3]
        · simp [Except.bind, h, h1, h2, h3]
  | error e =>
    by_cases h2 : isValidHtml (stripNullTerminator (latin1Decode raw)) = true
    · simp [Except.bind, h, h2]
    · simp [Except.bind, h, h2]

/-- C10: `accepts` and `convert` are deterministic — in a fixed environment (the
`olefile` availability and the external collaborators, which the code reads but never
mutates), two runs on inputs with identical byte content, position, declared extension
and declared media type produce identical outcomes. -/
theorem converter_deterministic (env : Env) (fs1 fs2 : FileStream)
    (ext1 ext2 mime1 mime2 : Option PyStr)
    (hdata : fs1.data = fs2.data) (hpos : fs1.pos = fs2.pos)
    (hext : ext1 = ext2) (hmime : mime1 = mime2) :
    accepts env fs1 ext1 mime1 = accepts env fs2 ext2 mime2 ∧
    convert env fs1 = convert env fs2 := by
  obtain ⟨d1, p1⟩ := fs1
  obtain ⟨d2, p2⟩ := fs2
  have hd : d1 = d2 := hdata
  have hp : p1 = p2 := hpos
  subst hd
  subst hp
  subst hext
  subst hmime
  exact ⟨rfl, rfl⟩

/-- C10, witness at a concrete environment and input. -/
theorem converter_deterministic_witness :
    accepts (envOf emptyOle) fs0 none none = accepts (envOf emptyOle) fs0 none none ∧
    convert (envOf emptyOle) fs0 = convert (envOf emptyOle) fs0 :=
  converter_deterministic (envOf emptyOle) fs0 fs0 none none none none rfl rfl rfl rfl

end MarkitdownMsg
